import Mathlib

/-!
Shallow embedding of the EcoQuery estimation engine (`content.js`).

The engine is a pure pipeline: query string → complexity → token estimate →
per-service energy (Wh) → carbon (g CO2) and a 1-6 score, plus an hour-of-day
environmental context.  Numbers are modelled exactly over `ℚ` (the JS source
only ever combines decimal constants, so no floating-point rounding is part of
the algorithm's intent); `Math.round` is `⌊x + 1/2⌋` and `Math.ceil` together
with `Math.log10` is modelled over `ℝ` with `Real.logb 10`, with a computable
rational characterization proved equal to it on nonnegative inputs.

JS regex tests of the form `/a|b|c/i.test(q)` are case-insensitive substring
tests: they hold iff one of the literal alternatives occurs contiguously in
`q`.  We model them by lowercasing the query (the keyword literals are already
lowercase ASCII) and testing contiguous containment on the character list.
-/

namespace EcoQuery

/-- Decides whether `pat` is a prefix of the second list (character-exact). -/
def prefixMatch : List Char → List Char → Bool
  | [], _ => true
  | _ :: _, [] => false
  | a :: as, b :: bs => a == b && prefixMatch as bs

/-- Decides whether `pat` occurs contiguously inside the second list; this is
the semantics of a JS regex literal alternative matching somewhere in the
subject string. -/
def substrIn (pat : List Char) : List Char → Bool
  | [] => prefixMatch pat []
  | c :: tl => prefixMatch pat (c :: tl) || substrIn pat tl

/-- The subject string lowercased, as a character list.  Models the
case-insensitive (`/i`) flag of the source's regex tests: all keyword
literals in the source are lowercase ASCII. -/
def lowerData (q : String) : List Char := q.data.map Char.toLower

/-- Case-insensitive containment of one keyword literal in the query. -/
def containsCI (q : String) (kw : String) : Bool := substrIn kw.data (lowerData q)

/-- A JS alternation regex `/k1|k2|.../i.test(q)`: some alternative occurs in
the query, case-insensitively. -/
def matchesAny (q : String) (kws : List String) : Bool := kws.any (fun kw => containsCI q kw)

/-- Alternatives of the source regex `/code|program|script|function|debug|fix|algorithm/i`. -/
def codeKeywords : List String := ["code", "program", "script", "function", "debug", "fix", "algorithm"]

/-- Alternatives of the source regex `/write|create|story|poem|essay|draft|design/i`. -/
def creativeKeywords : List String := ["write", "create", "story", "poem", "essay", "draft", "design"]

/-- Alternatives of the source regex `/analyze|explain|compare|summarize|breakdown|research/i`. -/
def analysisKeywords : List String := ["analyze", "explain", "compare", "summarize", "breakdown", "research"]

/-- Alternatives of the source regex `/complex|detailed|comprehensive|thorough|in-depth/i`. -/
def complexKeywords : List String := ["complex", "detailed", "comprehensive", "thorough", "in-depth"]

/-- Source line 82: `hasCodeRequest`. -/
def hasCodeRequest (q : String) : Bool := matchesAny q codeKeywords

/-- Source line 83: `hasCreativeRequest`. -/
def hasCreativeRequest (q : String) : Bool := matchesAny q creativeKeywords

/-- Source line 84: `hasAnalysisRequest`. -/
def hasAnalysisRequest (q : String) : Bool := matchesAny q analysisKeywords

/-- Source line 85: `hasComplexConcepts`. -/
def hasComplexConcepts (q : String) : Bool := matchesAny q complexKeywords

/-- Counts maximal runs of non-whitespace characters; `inRun` records whether
the previous character was part of a run. -/
def countRunsAux : Bool → List Char → Nat
  | _, [] => 0
  | inRun, c :: cs =>
    if c.isWhitespace then countRunsAux false cs
    else (if inRun then 0 else 1) + countRunsAux true cs

/-- Source line 81: `query.trim().split(/\s+/).length`.  For a trimmed
non-empty string, splitting on whitespace runs yields exactly one token per
maximal non-whitespace run; for an all-whitespace query the trimmed string is
empty and JS `"".split(/\s+/)` yields the single token `""`, hence length 1. -/
def wordCount (q : String) : Nat :=
  let runs := countRunsAux false q.data
  if runs = 0 then 1 else runs

/-- Source lines 87-98 of `analyzeQueryComplexity`: the additive complexity
total before the final `Math.min(complexity, 4)` cap. -/
def rawComplexity (q : String) : ℚ :=
  1
  + (if wordCount q > 50 then 0.5 else 0)
  + (if wordCount q > 100 then 1 else 0)
  + (if hasCodeRequest q then 1.5 else 0)
  + (if hasCreativeRequest q then 1 else 0)
  + (if hasAnalysisRequest q then 0.5 else 0)
  + (if hasComplexConcepts q then 0.5 else 0)

/-- Source lines 80-100: `analyzeQueryComplexity`, capped at 4. -/
def analyzeQueryComplexity (q : String) : ℚ := min (rawComplexity q) 4

/-- JS `Math.round`: round half toward positive infinity. -/
def jsRound (x : ℚ) : ℤ := ⌊x + 0.5⌋

/-- Alternatives of the source regex `/code|program|script/i` (line 108). -/
def codeTokenKeywords : List String := ["code", "program", "script"]

/-- Alternatives of the source regex `/list|steps|tutorial/i` (line 109). -/
def listTokenKeywords : List String := ["list", "steps", "tutorial"]

/-- Alternatives of the source regex `/yes|no|simple|quick/i` (line 110). -/
def quickTokenKeywords : List String := ["yes", "no", "simple", "quick"]

/-- Line 108 test of `estimateResponseTokens`. -/
def hasCodeTokens (q : String) : Bool := matchesAny q codeTokenKeywords

/-- Line 109 test of `estimateResponseTokens`. -/
def hasListTokens (q : String) : Bool := matchesAny q listTokenKeywords

/-- Line 110 test of `estimateResponseTokens`. -/
def hasQuickTokens (q : String) : Bool := matchesAny q quickTokenKeywords

/-- Source lines 103-113: `estimateResponseTokens`. -/
def estimateResponseTokens (query : String) (complexity : ℚ) : ℤ :=
  let baseTokens : ℚ := 500
  let tokens0 := baseTokens * complexity
  let tokens1 := if hasCodeTokens query then tokens0 * 1.5 else tokens0
  let tokens2 := if hasListTokens query then tokens1 * 1.2 else tokens1
  let tokens3 := if hasQuickTokens query then tokens2 * 0.3 else tokens2
  jsRound tokens3

/-- The `ENERGY_MODELS.google` record (source lines 61-64). -/
structure GoogleModel where
  baseEnergyWh : ℚ
  deriving DecidableEq

/-- The `ENERGY_MODELS.chatgpt` record (source lines 65-73). -/
structure ChatgptModel where
  baseEnergyWh : ℚ
  tokensPerQuery : ℚ
  energyPerToken : ℚ
  deriving DecidableEq

/-- The `ENERGY_MODELS` constant (source lines 60-74). -/
structure EnergyModels where
  google : GoogleModel
  chatgpt : ChatgptModel
  deriving DecidableEq

/-- Source lines 60-74. -/
def ENERGY_MODELS : EnergyModels :=
  { google := { baseEnergyWh := 0.04 },
    chatgpt := { baseEnergyWh := 0.5, tokensPerQuery := 500, energyPerToken := 0.004 } }

/-- Source line 77. -/
def GRID_INTENSITY_G_PER_KWH : ℚ := 367

/-- Computable characterization of the clamped logarithmic score of source
lines 130-131, as a function of the energy ratio
`ratio = energyWh / baselineWh`:

`Math.max(1, Math.min(6, Math.ceil(1 + Math.log10(ratio) * 2)))`.

The band boundaries are the half-integer powers of ten; comparisons against
`10 ^ (m / 2)` for odd `m` are expressed by squaring.  The theorem
`scoreOfRatio_eq_scoreOfRatioR` below proves this function equal, for all
nonnegative rational ratios, to the literal real-valued formula (including
the degenerate ratio 0, where JS `Math.log10 0 = -Infinity` makes the
clamped score 1, matching the first branch here). -/
def scoreOfRatio (ratio : ℚ) : ℤ :=
  if ratio ≤ 1 then 1
  else if ratio ^ 2 ≤ 10 then 2
  else if ratio ≤ 10 then 3
  else if ratio ^ 2 ≤ 1000 then 4
  else if ratio ≤ 100 then 5
  else 6

/-- The literal score formula of source lines 130-131 over the reals:
`Math.max(1, Math.min(6, Math.ceil(1 + Math.log10(ratio) * 2)))`. -/
noncomputable def scoreOfRatioR (ratio : ℝ) : ℤ :=
  max 1 (min 6 ⌈1 + Real.logb 10 ratio * 2⌉)

/-- The score formula applied to an energy value with the search-service
baseline `0.04` Wh, exactly as on source lines 130-131 (both services divide
by `ENERGY_MODELS.google.baseEnergyWh`). -/
noncomputable def scoreOfEnergyR (energyWh : ℝ) : ℤ :=
  max 1 (min 6 ⌈1 + Real.logb 10 (energyWh / 0.04) * 2⌉)

/-- The per-service result record built by `calculateEnergyFootprint`
(source lines 133-148). -/
structure ServiceResult where
  energyWh : ℚ
  carbonGrams : ℚ
  score : ℤ
  estimatedTokens : ℤ
  complexity : ℚ
  deriving DecidableEq

/-- The full result of `calculateEnergyFootprint` (source lines 116-149). -/
structure FootprintResult where
  google : ServiceResult
  chatgpt : ServiceResult
  deriving DecidableEq

/-- Source lines 116-149: `calculateEnergyFootprint`.  The score fields use
`scoreOfRatio` (see its docstring): both services are normalized by
`ENERGY_MODELS.google.baseEnergyWh`. -/
def calculateEnergyFootprint (query : String) : FootprintResult :=
  let complexity := analyzeQueryComplexity query
  let estimatedTokens := estimateResponseTokens query complexity
  let googleEnergy := ENERGY_MODELS.google.baseEnergyWh * max 1 (complexity * 0.5)
  let chatgptBaseEnergy := ENERGY_MODELS.chatgpt.baseEnergyWh
  let tokenEnergy := (estimatedTokens : ℚ) * ENERGY_MODELS.chatgpt.energyPerToken
  let chatgptEnergy := chatgptBaseEnergy + tokenEnergy
  let googleScore := scoreOfRatio (googleEnergy / ENERGY_MODELS.google.baseEnergyWh)
  let chatgptScore := scoreOfRatio (chatgptEnergy / ENERGY_MODELS.google.baseEnergyWh)
  { google :=
      { energyWh := googleEnergy
        carbonGrams := googleEnergy / 1000 * GRID_INTENSITY_G_PER_KWH
        score := googleScore
        estimatedTokens := 0
        complexity := complexity }
    chatgpt :=
      { energyWh := chatgptEnergy
        carbonGrams := chatgptEnergy / 1000 * GRID_INTENSITY_G_PER_KWH
        score := chatgptScore
        estimatedTokens := estimatedTokens
        complexity := complexity } }

/-- The record returned by `getEnvironmentalContext` (source lines 168-173). -/
structure EnvContext where
  gridIntensity : String
  intensityMultiplier : ℚ
  timeContext : String
  deriving DecidableEq

/-- Source lines 152-174: `getEnvironmentalContext`.  The source reads the
current hour from the clock; here the hour is the explicit input (an integer,
so that out-of-range values can be examined).  The source initializes the
Medium/1.0 defaults and overrides them in an `if / else if` chain whose
conditions are exactly the two closed hour ranges below; `timeContext` is
selected by a second conditional with the same two conditions. -/
def getEnvironmentalContext (hour : ℤ) : EnvContext :=
  if 10 ≤ hour ∧ hour ≤ 16 then
    { gridIntensity := "Lower (Solar Peak)"
      intensityMultiplier := 0.8
      timeContext := "Solar energy is more available now" }
  else if 18 ≤ hour ∧ hour ≤ 22 then
    { gridIntensity := "Higher (Peak Demand)"
      intensityMultiplier := 1.3
      timeContext := "Peak energy demand period" }
  else
    { gridIntensity := "Medium"
      intensityMultiplier := 1
      timeContext := "Standard grid mix" }

/-- The numeric data computed by `showPopup` (source lines 177-183) before any
rendering: the engine output for the query, the environmental context for the
hour, and the two time-adjusted carbon figures
`energyData.<service>.carbonGrams * envContext.intensityMultiplier`.
The source formats these two products with `toFixed(2)` when interpolating
them into HTML; that string formatting is presentation and is not part of the
numeric model. -/
structure PopupData where
  google : ServiceResult
  chatgpt : ServiceResult
  context : EnvContext
  adjustedGoogleCarbon : ℚ
  adjustedChatGPTCarbon : ℚ
  deriving DecidableEq

/-- Source lines 177-183 of `showPopup`, numerically. -/
def showPopupData (query : String) (hour : ℤ) : PopupData :=
  let energyData := calculateEnergyFootprint query
  let envContext := getEnvironmentalContext hour
  { google := energyData.google
    chatgpt := energyData.chatgpt
    context := envContext
    adjustedGoogleCarbon := energyData.google.carbonGrams * envContext.intensityMultiplier
    adjustedChatGPTCarbon := energyData.chatgpt.carbonGrams * envContext.intensityMultiplier }

/-- Source lines 827-834, `generateScoreExplanation`, assistant branch: the
auxiliary breakdown recomputes `totalEnergy = baseEnergy + tokenEnergy` from
the result record and renders a final score normalized by the assistant's own
`ENERGY_MODELS.chatgpt.baseEnergyWh` (0.5 Wh), not the shared search
baseline. -/
def generateScoreExplanationChatgptScore (data : ServiceResult) : ℤ :=
  let baseEnergy := ENERGY_MODELS.chatgpt.baseEnergyWh
  let tokenEnergy := (data.estimatedTokens : ℚ) * ENERGY_MODELS.chatgpt.energyPerToken
  let totalEnergy := baseEnergy + tokenEnergy
  scoreOfRatio (totalEnergy / baseEnergy)

/-- Source lines 945-950, `generateDetailedCalculation`, assistant branch: the
same assistant-baseline score as `generateScoreExplanationChatgptScore`. -/
def generateDetailedCalculationChatgptScore (data : ServiceResult) : ℤ :=
  let baseEnergy := ENERGY_MODELS.chatgpt.baseEnergyWh
  let tokenEnergy := (data.estimatedTokens : ℚ) * ENERGY_MODELS.chatgpt.energyPerToken
  let totalEnergy := baseEnergy + tokenEnergy
  scoreOfRatio (totalEnergy / baseEnergy)

/-! Basic lemmas about the string machinery. -/

theorem mem_of_prefixMatch {p l : List Char} (h : prefixMatch p l = true) :
    ∀ c ∈ p, c ∈ l := by
  induction p generalizing l with
  | nil => intro c hc; simp at hc
  | cons a as ih =>
    cases l with
    | nil => simp [prefixMatch] at h
    | cons b bs =>
      simp only [prefixMatch, Bool.and_eq_true, beq_iff_eq] at h
      obtain ⟨rfl, hrest⟩ := h
      intro c hc
      rcases List.mem_cons.mp hc with rfl | hc
      · exact List.mem_cons_self _ _
      · exact List.mem_cons_of_mem _ (ih hrest c hc)

theorem mem_of_substrIn {p l : List Char} (h : substrIn p l = true) :
    ∀ c ∈ p, c ∈ l := by
  induction l with
  | nil => exact mem_of_prefixMatch h
  | cons b bs ih =>
    simp only [substrIn, Bool.or_eq_true] at h
    rcases h with h | h
    · exact mem_of_prefixMatch h
    · exact fun c hc => List.mem_cons_of_mem _ (ih h c hc)

theorem toLower_isWhitespace {c : Char} (h : c.isWhitespace = true) :
    (Char.toLower c).isWhitespace = true := by
  have hc : ((c = ' ' ∨ c = '\t') ∨ c = '\r') ∨ c = '\n' := by
    simpa [Char.isWhitespace] using h
  rcases hc with ((rfl | rfl) | rfl) | rfl <;> decide

theorem lowerData_whitespace {q : String} (hws : ∀ c ∈ q.data, c.isWhitespace = true) :
    ∀ c ∈ lowerData q, c.isWhitespace = true := by
  intro c hc
  unfold lowerData at hc
  obtain ⟨a, ha, rfl⟩ := List.mem_map.mp hc
  exact toLower_isWhitespace (hws a ha)

theorem containsCI_eq_false {q kw : String} (hws : ∀ c ∈ q.data, c.isWhitespace = true)
    (hkw : ∃ c ∈ kw.data, c.isWhitespace = false) : containsCI q kw = false := by
  by_contra h
  rw [Bool.not_eq_false] at h
  obtain ⟨c, hc, hcnws⟩ := hkw
  have hmem : c ∈ lowerData q := mem_of_substrIn h c hc
  have := lowerData_whitespace hws c hmem
  rw [this] at hcnws
  simp at hcnws

theorem matchesAny_eq_false {q : String} {kws : List String}
    (hws : ∀ c ∈ q.data, c.isWhitespace = true)
    (hkws : ∀ kw ∈ kws, ∃ c ∈ kw.data, c.isWhitespace = false) :
    matchesAny q kws = false := by
  unfold matchesAny
  rw [List.any_eq_false]
  intro kw hkw
  rw [containsCI_eq_false hws (hkws kw hkw)]
  exact Bool.false_ne_true

theorem countRunsAux_eq_zero {l : List Char} (hws : ∀ c ∈ l, c.isWhitespace = true) :
    ∀ b, countRunsAux b l = 0 := by
  induction l with
  | nil => intro b; rfl
  | cons c cs ih =>
    intro b
    have hc := hws c (List.mem_cons_self c cs)
    simp only [countRunsAux, hc, if_true]
    exact ih (fun x hx => hws x (List.mem_cons_of_mem c hx)) false

theorem wordCount_of_whitespace {q : String} (hws : ∀ c ∈ q.data, c.isWhitespace = true) :
    wordCount q = 1 := by
  simp [wordCount, countRunsAux_eq_zero hws false]

/-! Bounds of the complexity analyzer and the token estimator. -/

theorem one_le_rawComplexity (q : String) : 1 ≤ rawComplexity q := by
  unfold rawComplexity
  have h1 : (0:ℚ) ≤ if wordCount q > 50 then 0.5 else 0 := by split_ifs <;> norm_num
  have h2 : (0:ℚ) ≤ if wordCount q > 100 then 1 else 0 := by split_ifs <;> norm_num
  have h3 : (0:ℚ) ≤ if hasCodeRequest q then 1.5 else 0 := by split_ifs <;> norm_num
  have h4 : (0:ℚ) ≤ if hasCreativeRequest q then 1 else 0 := by split_ifs <;> norm_num
  have h5 : (0:ℚ) ≤ if hasAnalysisRequest q then 0.5 else 0 := by split_ifs <;> norm_num
  have h6 : (0:ℚ) ≤ if hasComplexConcepts q then 0.5 else 0 := by split_ifs <;> norm_num
  linarith

theorem one_le_analyzeQueryComplexity (q : String) : 1 ≤ analyzeQueryComplexity q :=
  le_min (one_le_rawComplexity q) (by norm_num)

theorem analyzeQueryComplexity_le_four (q : String) : analyzeQueryComplexity q ≤ 4 :=
  min_le_right _ _

theorem le_jsRound (n : ℤ) (x : ℚ) (h : (n:ℚ) ≤ x) : n ≤ jsRound x := by
  unfold jsRound
  refine Int.le_floor.mpr ?_
  linarith

theorem estimateResponseTokens_eq (q : String) (c : ℚ) :
    estimateResponseTokens q c
      = jsRound (500 * c * ((if hasCodeTokens q then (1.5:ℚ) else 1)
          * (if hasListTokens q then (1.2:ℚ) else 1)
          * (if hasQuickTokens q then (0.3:ℚ) else 1))) := by
  dsimp only [estimateResponseTokens]
  split_ifs <;> (congr 1; ring)

theorem le_estimateResponseTokens (q : String) (c : ℚ) (hc : 1 ≤ c) :
    150 ≤ estimateResponseTokens q c := by
  rw [estimateResponseTokens_eq]
  refine le_jsRound 150 _ ?_
  have hm : (0.3:ℚ) ≤ (if hasCodeTokens q then (1.5:ℚ) else 1)
      * (if hasListTokens q then (1.2:ℚ) else 1)
      * (if hasQuickTokens q then (0.3:ℚ) else 1) := by
    split_ifs <;> norm_num
  nlinarith

theorem estimateResponseTokens_nonneg (q : String) (c : ℚ) (hc : 0 ≤ c) :
    0 ≤ estimateResponseTokens q c := by
  rw [estimateResponseTokens_eq]
  refine le_jsRound 0 _ ?_
  have hm : (0:ℚ) ≤ (if hasCodeTokens q then (1.5:ℚ) else 1)
      * (if hasListTokens q then (1.2:ℚ) else 1)
      * (if hasQuickTokens q then (0.3:ℚ) else 1) := by
    split_ifs <;> norm_num
  nlinarith

/-! Relating the computable score bands to the real ceil-log formula. -/

theorem twoLogb_le_iff (x : ℝ) (hx : 0 < x) (n : ℕ) :
    Real.logb 10 x * 2 ≤ (n : ℝ) ↔ x ^ 2 ≤ (10 : ℝ) ^ n := by
  have h2 : Real.logb 10 (x ^ 2) = 2 * Real.logb 10 x := by
    simpa using Real.logb_pow 10 x 2
  rw [mul_comm, ← h2,
    Real.logb_le_iff_le_rpow (by norm_num) (by positivity), Real.rpow_natCast]

theorem lt_twoLogb_iff (x : ℝ) (hx : 0 < x) (n : ℕ) :
    (n : ℝ) < Real.logb 10 x * 2 ↔ (10 : ℝ) ^ n < x ^ 2 := by
  rw [lt_iff_not_le, lt_iff_not_le, twoLogb_le_iff x hx n]

theorem ceil_eq_of_bounds (a : ℝ) (k : ℤ) (hl : (k:ℝ) - 1 < a) (hu : a ≤ (k:ℝ)) :
    ⌈a⌉ = k := by
  have hk1 : ⌈a⌉ ≤ k := Int.ceil_le.mpr hu
  have hk2 : k - 1 < ⌈a⌉ := Int.lt_ceil.mpr (by push_cast; linarith)
  omega

theorem scoreOfRatio_eq_scoreOfRatioR (r : ℚ) (h : 0 ≤ r) :
    scoreOfRatio r = scoreOfRatioR (r : ℝ) := by
  rcases eq_or_lt_of_le h with h0 | h0
  · rw [← h0]
    simp [scoreOfRatio, scoreOfRatioR, Real.logb_zero]
  · have hx : (0:ℝ) < (r:ℝ) := by exact_mod_cast h0
    unfold scoreOfRatio scoreOfRatioR
    split_ifs with h1 h2 h3 h4 h5
    · have hb := (twoLogb_le_iff (r:ℝ) hx 0).mpr (by
        have h1R : (r:ℝ) ≤ 1 := by exact_mod_cast h1
        rw [show ((10:ℝ)^(0:ℕ)) = 1 from by norm_num]
        nlinarith)
      push_cast at hb
      have hc : ⌈(1:ℝ) + Real.logb 10 (r:ℝ) * 2⌉ ≤ 1 :=
        Int.ceil_le.mpr (by push_cast; linarith)
      omega
    · have hgt := (lt_twoLogb_iff (r:ℝ) hx 0).mpr (by
        have h1R : (1:ℝ) < (r:ℝ) := by exact_mod_cast not_le.mp h1
        rw [show ((10:ℝ)^(0:ℕ)) = 1 from by norm_num]
        nlinarith)
      have hle := (twoLogb_le_iff (r:ℝ) hx 1).mpr (by
        have h2R : ((r:ℝ))^2 ≤ 10 := by exact_mod_cast h2
        rw [show ((10:ℝ)^(1:ℕ)) = 10 from by norm_num]
        linarith)
      push_cast at hgt hle
      have hc : ⌈(1:ℝ) + Real.logb 10 (r:ℝ) * 2⌉ = 2 :=
        ceil_eq_of_bounds _ 2 (by push_cast; linarith) (by push_cast; linarith)
      rw [hc]
      norm_num
    · have hgt := (lt_twoLogb_iff (r:ℝ) hx 1).mpr (by
        have h2R : (10:ℝ) < ((r:ℝ))^2 := by exact_mod_cast not_le.mp h2
        rw [show ((10:ℝ)^(1:ℕ)) = 10 from by norm_num]
        linarith)
      have hle := (twoLogb_le_iff (r:ℝ) hx 2).mpr (by
        have h3R : (r:ℝ) ≤ 10 := by exact_mod_cast h3
        rw [show ((10:ℝ)^(2:ℕ)) = 100 from by norm_num]
        nlinarith)
      push_cast at hgt hle
      have hc : ⌈(1:ℝ) + Real.logb 10 (r:ℝ) * 2⌉ = 3 :=
        ceil_eq_of_bounds _ 3 (by push_cast; linarith) (by push_cast; linarith)
      rw [hc]
      norm_num
    · have hgt := (lt_twoLogb_iff (r:ℝ) hx 2).mpr (by
        have h3R : (10:ℝ) < (r:ℝ) := by exact_mod_cast not_le.mp h3
        rw [show ((10:ℝ)^(2:ℕ)) = 100 from by norm_num]
        nlinarith)
      have hle := (twoLogb_le_iff (r:ℝ) hx 3).mpr (by
        have h4R : ((r:ℝ))^2 ≤ 1000 := by exact_mod_cast h4
        rw [show ((10:ℝ)^(3:ℕ)) = 1000 from by norm_num]
        linarith)
      push_cast at hgt hle
      have hc : ⌈(1:ℝ) + Real.logb 10 (r:ℝ) * 2⌉ = 4 :=
        ceil_eq_of_bounds _ 4 (by push_cast; linarith) (by push_cast; linarith)
      rw [hc]
      norm_num
    · have hgt := (lt_twoLogb_iff (r:ℝ) hx 3).mpr (by
        have h4R : (1000:ℝ) < ((r:ℝ))^2 := by exact_mod_cast not_le.mp h4
        rw [show ((10:ℝ)^(3:ℕ)) = 1000 from by norm_num]
        linarith)
      have hle := (twoLogb_le_iff (r:ℝ) hx 4).mpr (by
        have h5R : (r:ℝ) ≤ 100 := by exact_mod_cast h5
        rw [show ((10:ℝ)^(4:ℕ)) = 10000 from by norm_num]
        nlinarith)
      push_cast at hgt hle
      have hc : ⌈(1:ℝ) + Real.logb 10 (r:ℝ) * 2⌉ = 5 :=
        ceil_eq_of_bounds _ 5 (by push_cast; linarith) (by push_cast; linarith)
      rw [hc]
      norm_num
    · have hgt := (lt_twoLogb_iff (r:ℝ) hx 4).mpr (by
        have h5R : (100:ℝ) < (r:ℝ) := by exact_mod_cast not_le.mp h5
        rw [show ((10:ℝ)^(4:ℕ)) = 10000 from by norm_num]
        nlinarith)
      push_cast at hgt
      have hc : (5:ℤ) < ⌈(1:ℝ) + Real.logb 10 (r:ℝ) * 2⌉ :=
        Int.lt_ceil.mpr (by push_cast; linarith)
      omega

theorem scoreOfRatioR_mono {a b : ℝ} (ha : 0 ≤ a) (hab : a ≤ b) :
    scoreOfRatioR a ≤ scoreOfRatioR b := by
  rcases eq_or_lt_of_le ha with h0 | h0
  · have hA : scoreOfRatioR a = 1 := by
      rw [← h0]
      simp [scoreOfRatioR, Real.logb_zero]
    rw [hA]
    exact le_max_left _ _
  · have hlog : Real.logb 10 a ≤ Real.logb 10 b :=
      Real.logb_le_logb_of_le (by norm_num) h0 hab
    have hceil : ⌈(1:ℝ) + Real.logb 10 a * 2⌉ ≤ ⌈(1:ℝ) + Real.logb 10 b * 2⌉ :=
      Int.ceil_mono (by linarith)
    exact max_le_max le_rfl (min_le_min le_rfl hceil)

theorem scoreOfRatio_mono {a b : ℚ} (ha : 0 ≤ a) (hab : a ≤ b) :
    scoreOfRatio a ≤ scoreOfRatio b := by
  rw [scoreOfRatio_eq_scoreOfRatioR a ha, scoreOfRatio_eq_scoreOfRatioR b (ha.trans hab)]
  exact scoreOfRatioR_mono (by exact_mod_cast ha) (by exact_mod_cast hab)

theorem scoreOfRatio_bounds (r : ℚ) : 1 ≤ scoreOfRatio r ∧ scoreOfRatio r ≤ 6 := by
  unfold scoreOfRatio
  split_ifs <;> omega

/-! Projection lemmas for `calculateEnergyFootprint`, and range facts. -/

theorem google_base_eq : ENERGY_MODELS.google.baseEnergyWh = 0.04 := rfl

theorem chatgpt_base_eq : ENERGY_MODELS.chatgpt.baseEnergyWh = 0.5 := rfl

theorem chatgpt_perToken_eq : ENERGY_MODELS.chatgpt.energyPerToken = 0.004 := rfl

theorem footprint_google_energy (q : String) :
    (calculateEnergyFootprint q).google.energyWh
      = ENERGY_MODELS.google.baseEnergyWh * max 1 (analyzeQueryComplexity q * 0.5) := rfl

theorem footprint_google_carbon (q : String) :
    (calculateEnergyFootprint q).google.carbonGrams
      = (calculateEnergyFootprint q).google.energyWh / 1000 * GRID_INTENSITY_G_PER_KWH := rfl

theorem footprint_google_score (q : String) :
    (calculateEnergyFootprint q).google.score
      = scoreOfRatio ((calculateEnergyFootprint q).google.energyWh
          / ENERGY_MODELS.google.baseEnergyWh) := rfl

theorem footprint_google_tokens (q : String) :
    (calculateEnergyFootprint q).google.estimatedTokens = 0 := rfl

theorem footprint_chatgpt_energy (q : String) :
    (calculateEnergyFootprint q).chatgpt.energyWh
      = ENERGY_MODELS.chatgpt.baseEnergyWh
        + (estimateResponseTokens q (analyzeQueryComplexity q) : ℚ)
          * ENERGY_MODELS.chatgpt.energyPerToken := rfl

theorem footprint_chatgpt_carbon (q : String) :
    (calculateEnergyFootprint q).chatgpt.carbonGrams
      = (calculateEnergyFootprint q).chatgpt.energyWh / 1000 * GRID_INTENSITY_G_PER_KWH := rfl

theorem footprint_chatgpt_score (q : String) :
    (calculateEnergyFootprint q).chatgpt.score
      = scoreOfRatio ((calculateEnergyFootprint q).chatgpt.energyWh
          / ENERGY_MODELS.google.baseEnergyWh) := rfl

theorem footprint_chatgpt_tokens (q : String) :
    (calculateEnergyFootprint q).chatgpt.estimatedTokens
      = estimateResponseTokens q (analyzeQueryComplexity q) := rfl

theorem footprint_chatgpt_complexity (q : String) :
    (calculateEnergyFootprint q).chatgpt.complexity = analyzeQueryComplexity q := rfl

theorem google_energy_nonneg (q : String) :
    0 ≤ (calculateEnergyFootprint q).google.energyWh := by
  rw [footprint_google_energy, google_base_eq]
  have h1 : (1:ℚ) ≤ max 1 (analyzeQueryComplexity q * 0.5) := le_max_left _ _
  nlinarith

theorem google_energy_le (q : String) :
    (calculateEnergyFootprint q).google.energyWh ≤ 0.08 := by
  rw [footprint_google_energy, google_base_eq]
  have hc4 := analyzeQueryComplexity_le_four q
  have h1 : max 1 (analyzeQueryComplexity q * 0.5) ≤ 2 :=
    max_le (by norm_num) (by nlinarith)
  nlinarith

theorem chatgpt_tokens_ge (q : String) :
    150 ≤ (calculateEnergyFootprint q).chatgpt.estimatedTokens := by
  rw [footprint_chatgpt_tokens]
  exact le_estimateResponseTokens q _ (one_le_analyzeQueryComplexity q)

theorem chatgpt_energy_ge (q : String) :
    1.1 ≤ (calculateEnergyFootprint q).chatgpt.energyWh := by
  rw [footprint_chatgpt_energy, chatgpt_base_eq, chatgpt_perToken_eq]
  have h2 : (150:ℚ) ≤ (estimateResponseTokens q (analyzeQueryComplexity q) : ℚ) := by
    exact_mod_cast le_estimateResponseTokens q _ (one_le_analyzeQueryComplexity q)
  nlinarith

theorem chatgpt_energy_nonneg (q : String) :
    0 ≤ (calculateEnergyFootprint q).chatgpt.energyWh :=
  le_trans (by norm_num) (chatgpt_energy_ge q)

/-! Evaluation helpers on the two concrete queries used by the scenarios. -/

theorem jsRound_eq (x : ℚ) (n : ℤ) (h1 : (n:ℚ) ≤ x + 0.5) (h2 : x + 0.5 < n + 1) :
    jsRound x = n := by
  unfold jsRound
  rw [Int.floor_eq_iff]
  exact ⟨h1, h2⟩

theorem hi_complexity : analyzeQueryComplexity ("hi") = 1 := by
  have h1 : wordCount ("hi") = 1 := by decide
  have h2 : hasCodeRequest ("hi") = false := by decide
  have h3 : hasCreativeRequest ("hi") = false := by decide
  have h4 : hasAnalysisRequest ("hi") = false := by decide
  have h5 : hasComplexConcepts ("hi") = false := by decide
  have hr : rawComplexity ("hi") = 1 := by norm_num [rawComplexity, h1, h2, h3, h4, h5]
  norm_num [analyzeQueryComplexity, hr]

theorem hi_tokens : estimateResponseTokens ("hi") 1 = 500 := by
  have h1 : hasCodeTokens ("hi") = false := by decide
  have h2 : hasListTokens ("hi") = false := by decide
  have h3 : hasQuickTokens ("hi") = false := by decide
  rw [estimateResponseTokens_eq]
  norm_num [h1, h2, h3]
  exact jsRound_eq _ 500 (by norm_num) (by norm_num)

theorem hi_chatgpt_tokens : (calculateEnergyFootprint ("hi")).chatgpt.estimatedTokens = 500 := by
  rw [footprint_chatgpt_tokens, hi_complexity, hi_tokens]

theorem hi_chatgpt_energy : (calculateEnergyFootprint ("hi")).chatgpt.energyWh = 2.5 := by
  rw [footprint_chatgpt_energy, chatgpt_base_eq, chatgpt_perToken_eq, hi_complexity, hi_tokens]
  norm_num

theorem hi_chatgpt_score : (calculateEnergyFootprint ("hi")).chatgpt.score = 5 := by
  rw [footprint_chatgpt_score, hi_chatgpt_energy, google_base_eq]
  norm_num [scoreOfRatio]

theorem bquery_complexity :
    analyzeQueryComplexity ("write a detailed comprehensive analysis of code performance") = 4 := by
  have h1 : wordCount ("write a detailed comprehensive analysis of code performance") = 8 := by
    decide
  have h2 : hasCodeRequest ("write a detailed comprehensive analysis of code performance")
      = true := by decide
  have h3 : hasCreativeRequest ("write a detailed comprehensive analysis of code performance")
      = true := by decide
  have h4 : hasAnalysisRequest ("write a detailed comprehensive analysis of code performance")
      = false := by decide
  have h5 : hasComplexConcepts ("write a detailed comprehensive analysis of code performance")
      = true := by decide
  have hr : rawComplexity ("write a detailed comprehensive analysis of code performance")
      = 4 := by norm_num [rawComplexity, h1, h2, h3, h4, h5]
  norm_num [analyzeQueryComplexity, hr]

theorem bquery_raw :
    rawComplexity ("write a detailed comprehensive analysis of code performance") = 4 := by
  have h1 : wordCount ("write a detailed comprehensive analysis of code performance") = 8 := by
    decide
  have h2 : hasCodeRequest ("write a detailed comprehensive analysis of code performance")
      = true := by decide
  have h3 : hasCreativeRequest ("write a detailed comprehensive analysis of code performance")
      = true := by decide
  have h4 : hasAnalysisRequest ("write a detailed comprehensive analysis of code performance")
      = false := by decide
  have h5 : hasComplexConcepts ("write a detailed comprehensive analysis of code performance")
      = true := by decide
  norm_num [rawComplexity, h1, h2, h3, h4, h5]

theorem bquery_tokens :
    estimateResponseTokens ("write a detailed comprehensive analysis of code performance") 4
      = 3000 := by
  have h1 : hasCodeTokens ("write a detailed comprehensive analysis of code performance")
      = true := by decide
  have h2 : hasListTokens ("write a detailed comprehensive analysis of code performance")
      = false := by decide
  have h3 : hasQuickTokens ("write a detailed comprehensive analysis of code performance")
      = false := by decide
  rw [estimateResponseTokens_eq]
  norm_num [h1, h2, h3]
  exact jsRound_eq _ 3000 (by norm_num) (by norm_num)

theorem bquery_chatgpt_tokens :
    (calculateEnergyFootprint
        ("write a detailed comprehensive analysis of code performance")).chatgpt.estimatedTokens
      = 3000 := by
  rw [footprint_chatgpt_tokens, bquery_complexity, bquery_tokens]

theorem bquery_chatgpt_energy :
    (calculateEnergyFootprint
        ("write a detailed comprehensive analysis of code performance")).chatgpt.energyWh
      = 12.5 := by
  rw [footprint_chatgpt_energy, chatgpt_base_eq, chatgpt_perToken_eq, bquery_complexity,
    bquery_tokens]
  norm_num

theorem bquery_chatgpt_score :
    (calculateEnergyFootprint
        ("write a detailed comprehensive analysis of code performance")).chatgpt.score = 6 := by
  rw [footprint_chatgpt_score, bquery_chatgpt_energy, google_base_eq]
  norm_num [scoreOfRatio]

theorem scoreOfEnergyR_eq (x : ℝ) : scoreOfEnergyR x = scoreOfRatioR (x / 0.04) := rfl

theorem explanation_score_eq (data : ServiceResult) :
    generateScoreExplanationChatgptScore data
      = scoreOfRatio ((ENERGY_MODELS.chatgpt.baseEnergyWh
          + (data.estimatedTokens : ℚ) * ENERGY_MODELS.chatgpt.energyPerToken)
          / ENERGY_MODELS.chatgpt.baseEnergyWh) := rfl

theorem detailed_score_eq (data : ServiceResult) :
    generateDetailedCalculationChatgptScore data
      = scoreOfRatio ((ENERGY_MODELS.chatgpt.baseEnergyWh
          + (data.estimatedTokens : ℚ) * ENERGY_MODELS.chatgpt.energyPerToken)
          / ENERGY_MODELS.chatgpt.baseEnergyWh) := rfl

/-! The claims. -/

/-- C1: for every query, both services' 1-6 scores are computed with the same
reference baseline, the search service's baseEnergyWh = 0.04 Wh: each score
equals clamp(ceil(1 + log10(energyWh / 0.04) * 2), 1, 6) applied to that
service's energy; and the assistant score is never normalized against the
assistant's own baseEnergyWh — witnessed by a query on which the own-baseline
(0.5 Wh) variant of the formula yields a different value than the score the
engine returns. -/
theorem claim_C1_shared_baseline :
    (∀ q : String,
      (calculateEnergyFootprint q).google.score
        = scoreOfEnergyR (((calculateEnergyFootprint q).google.energyWh : ℝ)) ∧
      (calculateEnergyFootprint q).chatgpt.score
        = scoreOfEnergyR (((calculateEnergyFootprint q).chatgpt.energyWh : ℝ))) ∧
    ∃ q : String,
      (calculateEnergyFootprint q).chatgpt.score
        ≠ max 1 (min 6 ⌈1 + Real.logb 10
            (((calculateEnergyFootprint q).chatgpt.energyWh : ℝ) / 0.5) * 2⌉) := by
  constructor
  · intro q
    constructor
    · have h0 : (0:ℚ) ≤ (calculateEnergyFootprint q).google.energyWh / 0.04 :=
        div_nonneg (google_energy_nonneg q) (by norm_num)
      rw [footprint_google_score, google_base_eq, scoreOfRatio_eq_scoreOfRatioR _ h0,
        scoreOfEnergyR_eq]
      congr 1
      push_cast
      ring
    · have h0 : (0:ℚ) ≤ (calculateEnergyFootprint q).chatgpt.energyWh / 0.04 :=
        div_nonneg (chatgpt_energy_nonneg q) (by norm_num)
      rw [footprint_chatgpt_score, google_base_eq, scoreOfRatio_eq_scoreOfRatioR _ h0,
        scoreOfEnergyR_eq]
      congr 1
      push_cast
      ring
  · refine ⟨("hi"), ?_⟩
    rw [hi_chatgpt_score, hi_chatgpt_energy]
    have h1 : (((2.5:ℚ)):ℝ) / 0.5 = (((5:ℚ)):ℝ) := by push_cast; norm_num
    rw [h1]
    have h2 : max 1 (min 6 ⌈1 + Real.logb 10 (((5:ℚ)):ℝ) * 2⌉) = scoreOfRatioR (((5:ℚ)):ℝ) :=
      rfl
    rw [h2, ← scoreOfRatio_eq_scoreOfRatioR 5 (by norm_num)]
    norm_num [scoreOfRatio]

/-- C2: on the query "hi", the auxiliary explanatory breakdown for the
assistant service renders a final score equal to
clamp(ceil(1 + log10(energyWh / 0.5) * 2), 1, 6) — dividing by the
assistant's own baseEnergyWh 0.5 — which evaluates to 3, while the badge
score returned by the core (which divides by the search baseline 0.04) is 5:
the auxiliary breakdown displays a different number than the badge score. -/
theorem claim_C2_breakdown_divergence :
    generateScoreExplanationChatgptScore ((calculateEnergyFootprint ("hi")).chatgpt)
        = max 1 (min 6 ⌈1 + Real.logb 10
            (((calculateEnergyFootprint ("hi")).chatgpt.energyWh : ℝ) / 0.5) * 2⌉) ∧
    generateScoreExplanationChatgptScore ((calculateEnergyFootprint ("hi")).chatgpt) = 3 ∧
    generateDetailedCalculationChatgptScore ((calculateEnergyFootprint ("hi")).chatgpt) = 3 ∧
    (calculateEnergyFootprint ("hi")).chatgpt.score = 5 ∧
    generateScoreExplanationChatgptScore ((calculateEnergyFootprint ("hi")).chatgpt)
      ≠ (calculateEnergyFootprint ("hi")).chatgpt.score := by
  have hval : generateScoreExplanationChatgptScore ((calculateEnergyFootprint ("hi")).chatgpt)
      = 3 := by
    rw [explanation_score_eq, hi_chatgpt_tokens, chatgpt_base_eq, chatgpt_perToken_eq]
    norm_num [scoreOfRatio]
  have hval2 : generateDetailedCalculationChatgptScore
      ((calculateEnergyFootprint ("hi")).chatgpt) = 3 := by
    rw [detailed_score_eq, hi_chatgpt_tokens, chatgpt_base_eq, chatgpt_perToken_eq]
    norm_num [scoreOfRatio]
  have hlog : generateScoreExplanationChatgptScore ((calculateEnergyFootprint ("hi")).chatgpt)
      = max 1 (min 6 ⌈1 + Real.logb 10
          (((calculateEnergyFootprint ("hi")).chatgpt.energyWh : ℝ) / 0.5) * 2⌉) := by
    rw [hval, hi_chatgpt_energy]
    have h1 : (((2.5:ℚ)):ℝ) / 0.5 = (((5:ℚ)):ℝ) := by push_cast; norm_num
    rw [h1]
    have h2 : max 1 (min 6 ⌈1 + Real.logb 10 (((5:ℚ)):ℝ) * 2⌉) = scoreOfRatioR (((5:ℚ)):ℝ) :=
      rfl
    rw [h2, ← scoreOfRatio_eq_scoreOfRatioR 5 (by norm_num)]
    norm_num [scoreOfRatio]
  refine ⟨hlog, hval, hval2, hi_chatgpt_score, ?_⟩
  rw [hval, hi_chatgpt_score]
  norm_num

/-- C3: the hour influences only the EnvironmentalContext: for any query and
any two hours, the per-service results of the estimation are identical
records (energyWh, carbonGrams, score, estimatedTokens, complexity), and the
displayed adjusted carbon equals the unadjusted carbonGrams times the
context's intensityMultiplier. -/
theorem claim_C3_hour_invariance :
    ∀ (q : String) (h1 h2 : ℤ),
      (showPopupData q h1).google = (showPopupData q h2).google ∧
      (showPopupData q h1).chatgpt = (showPopupData q h2).chatgpt ∧
      (showPopupData q h1).adjustedGoogleCarbon
        = (showPopupData q h1).google.carbonGrams
            * (getEnvironmentalContext h1).intensityMultiplier ∧
      (showPopupData q h1).adjustedChatGPTCarbon
        = (showPopupData q h1).chatgpt.carbonGrams
            * (getEnvironmentalContext h1).intensityMultiplier :=
  fun _ _ _ => ⟨rfl, rfl, rfl, rfl⟩

/-- C4: for every query string the complexity lies in [1, 4]; and for an
empty or whitespace-only query (every character whitespace) the complexity is
exactly 1: the word count is 1 (the split of the empty trimmed string yields
a single empty token) and no keyword family matches. -/
theorem claim_C4_complexity_range :
    ∀ q : String,
      (1 ≤ analyzeQueryComplexity q ∧ analyzeQueryComplexity q ≤ 4) ∧
      ((∀ c ∈ q.data, c.isWhitespace = true) →
        analyzeQueryComplexity q = 1 ∧ wordCount q = 1 ∧
        hasCodeRequest q = false ∧ hasCreativeRequest q = false ∧
        hasAnalysisRequest q = false ∧ hasComplexConcepts q = false) := by
  intro q
  refine ⟨⟨one_le_analyzeQueryComplexity q, analyzeQueryComplexity_le_four q⟩, ?_⟩
  intro hws
  have hw : wordCount q = 1 := wordCount_of_whitespace hws
  have hcode : hasCodeRequest q = false := matchesAny_eq_false hws (by decide)
  have hcreat : hasCreativeRequest q = false := matchesAny_eq_false hws (by decide)
  have hana : hasAnalysisRequest q = false := matchesAny_eq_false hws (by decide)
  have hcomp : hasComplexConcepts q = false := matchesAny_eq_false hws (by decide)
  have hr : rawComplexity q = 1 := by
    norm_num [rawComplexity, hw, hcode, hcreat, hana, hcomp]
  exact ⟨by norm_num [analyzeQueryComplexity, hr], hw, hcode, hcreat, hana, hcomp⟩

/-- C4 witness: the concrete whitespace-only query of three blanks. -/
theorem claim_C4_witness :
    analyzeQueryComplexity ("   ") = 1 ∧ wordCount ("   ") = 1 ∧
    hasCodeRequest ("   ") = false ∧ hasCreativeRequest ("   ") = false ∧
    hasAnalysisRequest ("   ") = false ∧ hasComplexConcepts ("   ") = false :=
  (claim_C4_complexity_range ("   ")).2 (by decide)

/-- C5: the token estimate equals round(500 * complexity * m) with m the
product of exactly the applicable multipliers (1.5 for code/program/script,
1.2 for list/steps/tutorial, 0.3 for yes/no/simple/quick, case-insensitive,
composable), rounded to the nearest integer; and for nonnegative complexity
the result is a nonnegative integer. -/
theorem claim_C5_token_formula :
    ∀ (q : String) (c : ℚ),
      estimateResponseTokens q c
        = jsRound (500 * c * ((if hasCodeTokens q then (1.5:ℚ) else 1)
            * (if hasListTokens q then (1.2:ℚ) else 1)
            * (if hasQuickTokens q then (0.3:ℚ) else 1))) ∧
      (0 ≤ c → 0 ≤ estimateResponseTokens q c) :=
  fun q c => ⟨estimateResponseTokens_eq q c, estimateResponseTokens_nonneg q c⟩

/-- C5 witness: the query "hi" at complexity 1. -/
theorem claim_C5_witness :
    estimateResponseTokens ("hi") 1
        = jsRound (500 * 1 * ((if hasCodeTokens ("hi") then (1.5:ℚ) else 1)
            * (if hasListTokens ("hi") then (1.2:ℚ) else 1)
            * (if hasQuickTokens ("hi") then (0.3:ℚ) else 1))) ∧
    0 ≤ estimateResponseTokens ("hi") 1 :=
  ⟨(claim_C5_token_formula ("hi") 1).1, (claim_C5_token_formula ("hi") 1).2 (by norm_num)⟩

/-- C6: for every query the search energy is 0.04 * max(1, complexity * 0.5)
Wh and the assistant energy is 0.5 + estimatedTokens * 0.004 Wh, with the
complexity and token values computed for that query; the pipeline guarantees
complexity ≥ 1 and estimatedTokens ≥ 0, and neither energy is negative. -/
theorem claim_C6_energy_model :
    ∀ q : String,
      (calculateEnergyFootprint q).google.energyWh
        = 0.04 * max 1 (analyzeQueryComplexity q * 0.5) ∧
      (calculateEnergyFootprint q).chatgpt.energyWh
        = 0.5 + (estimateResponseTokens q (analyzeQueryComplexity q) : ℚ) * 0.004 ∧
      1 ≤ analyzeQueryComplexity q ∧
      0 ≤ estimateResponseTokens q (analyzeQueryComplexity q) ∧
      0 ≤ (calculateEnergyFootprint q).google.energyWh ∧
      0 ≤ (calculateEnergyFootprint q).chatgpt.energyWh := by
  intro q
  refine ⟨?_, ?_, one_le_analyzeQueryComplexity q,
    estimateResponseTokens_nonneg q _
      (le_trans (by norm_num) (one_le_analyzeQueryComplexity q)),
    google_energy_nonneg q, chatgpt_energy_nonneg q⟩
  · rw [footprint_google_energy, google_base_eq]
  · rw [footprint_chatgpt_energy, chatgpt_base_eq, chatgpt_perToken_eq]

/-- C7: for every energy value ≥ 0 the score
clamp(ceil(1 + log10(energyWh / 0.04) * 2), 1, 6) is an integer in [1, 6],
and the score is monotonically non-decreasing in the energy. -/
theorem claim_C7_score_range_mono :
    ∀ e1 e2 : ℝ, 0 ≤ e1 → 0 ≤ e2 →
      (1 ≤ scoreOfEnergyR e1 ∧ scoreOfEnergyR e1 ≤ 6) ∧
      (e1 ≤ e2 → scoreOfEnergyR e1 ≤ scoreOfEnergyR e2) := by
  intro e1 e2 h1 h2
  constructor
  · exact ⟨le_max_left _ _, max_le (by norm_num) (min_le_left _ _)⟩
  · intro hle
    rw [scoreOfEnergyR_eq, scoreOfEnergyR_eq]
    exact scoreOfRatioR_mono (by positivity)
      ((div_le_div_iff_of_pos_right (by norm_num)).mpr hle)

/-- C7 witness: concrete energies 0.04 and 2.5 Wh. -/
theorem claim_C7_witness :
    (1 ≤ scoreOfEnergyR 0.04 ∧ scoreOfEnergyR 0.04 ≤ 6) ∧
    scoreOfEnergyR 0.04 ≤ scoreOfEnergyR 2.5 :=
  ⟨(claim_C7_score_range_mono 0.04 2.5 (by norm_num) (by norm_num)).1,
    (claim_C7_score_range_mono 0.04 2.5 (by norm_num) (by norm_num)).2 (by norm_num)⟩

/-- C8: the environmental context is a total function partitioning integer
hours: hours in [10, 16] yield the solar-peak label with multiplier 0.8,
hours in [18, 22] the peak-demand label with multiplier 1.3, and every other
hour — including 17 and 23 and any out-of-range value — yields Medium with
multiplier 1.0; hour 16 is in the solar bucket and hour 22 in the peak
bucket. -/
theorem claim_C8_context_partition :
    (∀ h : ℤ,
      ((10 ≤ h ∧ h ≤ 16) →
        (getEnvironmentalContext h).gridIntensity = "Lower (Solar Peak)" ∧
        (getEnvironmentalContext h).intensityMultiplier = 0.8) ∧
      ((18 ≤ h ∧ h ≤ 22) →
        (getEnvironmentalContext h).gridIntensity = "Higher (Peak Demand)" ∧
        (getEnvironmentalContext h).intensityMultiplier = 1.3) ∧
      (¬(10 ≤ h ∧ h ≤ 16) ∧ ¬(18 ≤ h ∧ h ≤ 22) →
        (getEnvironmentalContext h).gridIntensity = "Medium" ∧
        (getEnvironmentalContext h).intensityMultiplier = 1) ∧
      ((h < 0 ∨ 24 ≤ h) →
        (getEnvironmentalContext h).gridIntensity = "Medium" ∧
        (getEnvironmentalContext h).intensityMultiplier = 1)) ∧
    (getEnvironmentalContext 16).intensityMultiplier = 0.8 ∧
    (getEnvironmentalContext 17).intensityMultiplier = 1 ∧
    (getEnvironmentalContext 22).intensityMultiplier = 1.3 ∧
    (getEnvironmentalContext 23).intensityMultiplier = 1 := by
  constructor
  · intro h
    unfold getEnvironmentalContext
    split_ifs with hA hB <;>
      refine ⟨fun hx => ?_, fun hx => ?_, fun hx => ?_, fun hx => ?_⟩ <;>
      first
      | exact ⟨rfl, rfl⟩
      | exact (False.elim (by omega))
  · refine ⟨?_, ?_, ?_, ?_⟩ <;> norm_num [getEnvironmentalContext]

/-- C8 witness: hours 13 (solar peak), 20 (peak demand), 5 (medium) and the
out-of-range hour -3 (medium). -/
theorem claim_C8_witness :
    ((getEnvironmentalContext 13).gridIntensity = "Lower (Solar Peak)" ∧
      (getEnvironmentalContext 13).intensityMultiplier = 0.8) ∧
    ((getEnvironmentalContext 20).gridIntensity = "Higher (Peak Demand)" ∧
      (getEnvironmentalContext 20).intensityMultiplier = 1.3) ∧
    ((getEnvironmentalContext 5).gridIntensity = "Medium" ∧
      (getEnvironmentalContext 5).intensityMultiplier = 1) ∧
    ((getEnvironmentalContext (-3)).gridIntensity = "Medium" ∧
      (getEnvironmentalContext (-3)).intensityMultiplier = 1) :=
  ⟨(claim_C8_context_partition.1 13).1 (by decide),
    ((claim_C8_context_partition.1 20).2).1 (by decide),
    ((claim_C8_context_partition.1 5).2).2.1 (by decide),
    ((claim_C8_context_partition.1 (-3)).2).2.2 (by decide)⟩

/-- C9 counterexample: the claim's decomposition of Scenario B is false on
the code: the analytical-family regex (alternatives analyze, explain,
compare, summarize, breakdown, research) does not match the query — it
contains the word analysis, not analyze — so the pre-clamp sum is 4.0 and
not 4.5 as claimed. -/
theorem claim_C9_counterexample :
    hasAnalysisRequest ("write a detailed comprehensive analysis of code performance")
        = false ∧
    rawComplexity ("write a detailed comprehensive analysis of code performance") = 4 ∧
    rawComplexity ("write a detailed comprehensive analysis of code performance") ≠ 4.5 := by
  refine ⟨by decide, bquery_raw, ?_⟩
  rw [bquery_raw]
  norm_num

/-- C9 (amended): for the Scenario B query at hour 13 the complexity sums as
base 1 + code 1.5 + creative 1.0 + depth 0.5 = 4.0 (the analytical family
does not match, and the min-4 cap is inactive at exactly 4.0); tokens =
round(500 * 4 * 1.5) = 3000 via the code multiplier only; assistant energy =
0.5 + 3000 * 0.004 = 12.5 Wh; assistant score = 6; and the context at hour 13
is the solar-peak label with multiplier 0.8. -/
theorem claim_C9_scenario_b :
    rawComplexity ("write a detailed comprehensive analysis of code performance") = 4 ∧
    analyzeQueryComplexity ("write a detailed comprehensive analysis of code performance")
        = 4 ∧
    hasCodeRequest ("write a detailed comprehensive analysis of code performance") = true ∧
    hasCreativeRequest ("write a detailed comprehensive analysis of code performance")
        = true ∧
    hasComplexConcepts ("write a detailed comprehensive analysis of code performance")
        = true ∧
    hasAnalysisRequest ("write a detailed comprehensive analysis of code performance")
        = false ∧
    (calculateEnergyFootprint
        ("write a detailed comprehensive analysis of code performance")).chatgpt.estimatedTokens
        = 3000 ∧
    (calculateEnergyFootprint
        ("write a detailed comprehensive analysis of code performance")).chatgpt.energyWh
        = 12.5 ∧
    (calculateEnergyFootprint
        ("write a detailed comprehensive analysis of code performance")).chatgpt.score = 6 ∧
    (getEnvironmentalContext 13).gridIntensity = "Lower (Solar Peak)" ∧
    (getEnvironmentalContext 13).intensityMultiplier = 0.8 :=
  ⟨bquery_raw, bquery_complexity, by decide, by decide, by decide, by decide,
    bquery_chatgpt_tokens, bquery_chatgpt_energy, bquery_chatgpt_score,
    by norm_num [getEnvironmentalContext], by norm_num [getEnvironmentalContext]⟩

/-- C10: for every query the search energy is at most 0.08 Wh (complexity is
capped at 4) so the search score is 1 or 2, the assistant energy is at least
1.1 Wh (tokens are at least round(500 * 1 * 0.3) = 150) so the assistant
score is 4, 5 or 6, and hence the assistant score is strictly greater than
the search score: the two ranges never overlap. -/
theorem claim_C10_score_ranges_disjoint :
    ∀ q : String,
      (calculateEnergyFootprint q).google.energyWh ≤ 0.08 ∧
      1.1 ≤ (calculateEnergyFootprint q).chatgpt.energyWh ∧
      ((calculateEnergyFootprint q).google.score = 1 ∨
        (calculateEnergyFootprint q).google.score = 2) ∧
      ((calculateEnergyFootprint q).chatgpt.score = 4 ∨
        (calculateEnergyFootprint q).chatgpt.score = 5 ∨
        (calculateEnergyFootprint q).chatgpt.score = 6) ∧
      (calculateEnergyFootprint q).google.score
        < (calculateEnergyFootprint q).chatgpt.score := by
  intro q
  have hge := google_energy_nonneg q
  have hgle := google_energy_le q
  have hce := chatgpt_energy_ge q
  have hgs1 : 1 ≤ (calculateEnergyFootprint q).google.score := by
    rw [footprint_google_score]
    exact (scoreOfRatio_bounds _).1
  have hgs2 : (calculateEnergyFootprint q).google.score ≤ 2 := by
    rw [footprint_google_score, google_base_eq]
    have hmono := scoreOfRatio_mono
      (div_nonneg hge (by norm_num : (0:ℚ) ≤ 0.04))
      (show (calculateEnergyFootprint q).google.energyWh / 0.04 ≤ 2 by
        rw [div_le_iff₀ (by norm_num : (0:ℚ) < 0.04)]
        linarith)
    have h2 : scoreOfRatio (2:ℚ) = 2 := by norm_num [scoreOfRatio]
    omega
  have hcs6 : (calculateEnergyFootprint q).chatgpt.score ≤ 6 := by
    rw [footprint_chatgpt_score]
    exact (scoreOfRatio_bounds _).2
  have hcs4 : 4 ≤ (calculateEnergyFootprint q).chatgpt.score := by
    rw [footprint_chatgpt_score, google_base_eq]
    have h275 : (27.5:ℚ) ≤ (calculateEnergyFootprint q).chatgpt.energyWh / 0.04 := by
      rw [le_div_iff₀ (by norm_num : (0:ℚ) < 0.04)]
      linarith
    have hmono := scoreOfRatio_mono (by norm_num : (0:ℚ) ≤ 27.5) h275
    have h4 : scoreOfRatio (27.5:ℚ) = 4 := by norm_num [scoreOfRatio]
    omega
  exact ⟨hgle, hce, by omega, by omega, by omega⟩

end EcoQuery
